import Mathlib

/-!
Shallow embedding of the warrenprobeats purchase/reservation/download core
(main/models.py and main/views.py).  Time is modelled as natural-number
seconds; monetary amounts as rationals; the Django ORM state as explicit
lists of records threaded through each operation.
-/

namespace Warren

/-- Beat lifecycle states, from `Beat.STATUS_CHOICES` in main/models.py. -/
inductive BeatStatus
  | available
  | reserved
  | sold
  | downloaded
deriving DecidableEq, Repr

/-- Transaction states, from `Transaction.STATUS_CHOICES` in main/models.py. -/
inductive TxStatus
  | pending
  | completed
  | failed
  | cancelled
deriving DecidableEq, Repr

/-- Inventory item, from the `Beat` model in main/models.py.  The backing
`audio_file` is modelled by the title (used to build the served filename)
together with a flag recording whether the file exists on disk. -/
structure Beat where
  id : Nat
  title : String
  price : ℚ
  status : BeatStatus
  reserved_until : Option Nat
  download_count : Nat
  max_downloads : Nat
  audio_file_exists : Bool
deriving DecidableEq, Repr

/-- timedelta(minutes=5), in seconds. -/
def five_minutes : Nat := 5 * 60

/-- `Beat.mark_as_downloaded` (models.py 71-78): increment `download_count`,
and once it reaches `max_downloads` set status to `downloaded`.  The source
also assigns a stray `is_available` attribute there; that only shadows the
method on the in-memory object and touches no persisted field, so it has no
counterpart here. -/
def mark_as_downloaded (b : Beat) : Beat :=
  let b1 := { b with download_count := b.download_count + 1 }
  if b1.max_downloads ≤ b1.download_count then { b1 with status := .downloaded }
  else b1

/-- `Beat.is_downloadable` (models.py 81-83). -/
def is_downloadable (b : Beat) : Bool :=
  (b.status == .available || b.status == .sold)
    && b.download_count < b.max_downloads

/-- `Beat.reserve_for_purchase` (models.py 85-89): unconditionally set status
to `reserved` and the expiry to now + 5 minutes. -/
def reserve_for_purchase (now : Nat) (b : Beat) : Beat :=
  { b with status := .reserved, reserved_until := some (now + five_minutes) }

/-- `Beat.complete_purchase` (models.py 91-95). -/
def complete_purchase (b : Beat) : Beat :=
  { b with status := .sold, reserved_until := none }

/-- `Beat.release_reservation` (models.py 97-102): acts only when the beat is
`reserved`, has an expiry set, and that expiry is strictly in the past. -/
def release_reservation (now : Nat) (b : Beat) : Beat :=
  if b.status == .reserved then
    match b.reserved_until with
    | some ru =>
        if ru < now then { b with status := .available, reserved_until := none }
        else b
    | none => b
  else b

/-- `Beat.is_available` (models.py 104-107): a read with a side effect — it
first runs the lazy expiry sweep, then reports the status. -/
def is_available (now : Nat) (b : Beat) : Beat × Bool :=
  let b1 := release_reservation now b
  (b1, b1.status == .available)

/-- Ledger record, from the `Transaction` model in main/models.py.  Buyers
are identified by a numeric id. -/
structure Transaction where
  buyer : Nat
  beatId : Nat
  amount : ℚ
  status : TxStatus
  completed_at : Option Nat
deriving DecidableEq, Repr

/-- `Transaction.save` override (models.py 172-180): a completing save with
`completed_at` unset stamps it and drives the beat to `sold`; a failed or
cancelled save attempts a reservation release; any other save touches
nothing.  Returns the saved transaction and the (possibly updated) beat. -/
def Transaction.save (now : Nat) (t : Transaction) (b : Beat) :
    Transaction × Beat :=
  if t.status = .completed ∧ t.completed_at = none then
    ({ t with completed_at := some now }, complete_purchase b)
  else if t.status = .failed ∨ t.status = .cancelled then
    (t, release_reservation now b)
  else
    (t, b)

/-- `DownloadHistory` row (models.py 277-292): a beat, a buyer and the
auto-set download timestamp are its only fields — in particular the model
has no `download_count` field and no such property. -/
structure DownloadHistory where
  beatId : Nat
  buyer : Nat
  downloaded_at : Nat
deriving DecidableEq, Repr

/-- post_save receiver `update_beat_download_count` (models.py 296-306):
were a history row ever inserted, it would increment the owning beat's count
and mark it `downloaded` once the quota is reached.  The program's sole
creation site (views.py 64-68) raises before inserting, so this receiver
never fires in any reachable execution. -/
def update_beat_download_count (b : Beat) : Beat :=
  let b1 := { b with download_count := b.download_count + 1 }
  if b1.max_downloads ≤ b1.download_count then { b1 with status := .downloaded }
  else b1

/-- post_save receiver `auto_increment_download_count` (models.py 341-344):
executes `instance.download_count += 1` on the history row itself; the model
has no `download_count` attribute, so the read raises AttributeError — a
fallible operation that can never succeed (and, like the other receiver, it
is never reached in any execution of the program). -/
def auto_increment_download_count (_h : DownloadHistory) :
    Option DownloadHistory :=
  none

/-- Possible outcomes of the download endpoint (views.py 41-81): `notFound`
is the Http404 of `get_object_or_404`, the two forbidden responses carry
their cause, `typeError` is the unhandled TypeError (an HTTP 500) raised by
the history insert, and `served` is the FileResponse branch — present in the
source text (views.py 71-79) but unreachable, because the insert above it
always raises. -/
inductive DownloadResult
  | notFound
  | notPurchased
  | fileMissing
  | typeError
  | served (filename : String)
deriving DecidableEq, Repr

/-- The purchase check of views.py 46-50: a completed transaction for
exactly this (buyer, beat) pair exists. -/
def has_purchased (txs : List Transaction) (buyer beatId : Nat) : Bool :=
  txs.any fun t =>
    t.buyer == buyer && t.beatId == beatId && t.status == .completed

/-- Body of `download_beat` (views.py 41-81) once the beat is in hand: check
purchase, check the file, then execute `DownloadHistory.objects.create` with
the keyword `download_count=beat.download_count`.  `download_count` is
neither a field nor a property of DownloadHistory, so Django's
`Model.__init__` rejects the keyword with TypeError: the request dies with a
server error before any row is inserted, before either post_save receiver
runs, before the FileResponse is built and before `mark_as_downloaded` is
called.  On every path the beat is returned untouched and no history row is
created. -/
def download_beat (_now : Nat) (txs : List Transaction) (buyer : Nat)
    (b : Beat) : DownloadResult × Beat × List DownloadHistory :=
  if has_purchased txs buyer b.id then
    if b.audio_file_exists then
      (.typeError, b, [])
    else
      (.fileMissing, b, [])
  else
    (.notPurchased, b, [])

/-- The persisted records the core reads and writes. -/
structure Store where
  beats : List Beat
  transactions : List Transaction
  histories : List DownloadHistory
deriving DecidableEq, Repr

/-- `get_object_or_404(Beat, pk=beatId)` as a lookup. -/
def findBeat (s : Store) (beatId : Nat) : Option Beat :=
  s.beats.find? fun b => b.id == beatId

/-- Persist a saved beat back into the store. -/
def setBeat (s : Store) (b : Beat) : Store :=
  { s with beats := s.beats.map fun x => if x.id == b.id then b else x }

/-- `download_beat` at the store level: the `get_object_or_404` lookup, the
endpoint body, then persistence of the saved beat and created history. -/
def download_beat_view (now : Nat) (buyer : Nat) (beatId : Nat) (s : Store) :
    DownloadResult × Store :=
  match findBeat s beatId with
  | none => (.notFound, s)
  | some b =>
    let r := download_beat now s.transactions buyer b
    (r.1, { setBeat s r.2.1 with histories := s.histories ++ r.2.2 })

/-- Module-level `beat_id_global` (views.py 37): initialised to 0 and never
reassigned anywhere in the source. -/
def beat_id_global : Nat := 0

/-- Outcomes of the payment callback handler (views.py 136-196). -/
inductive PaymentOutcome
  | invalidSession
  | beatNotFound
  | successful (deliveredBeatId : Nat) (r : DownloadResult)
  | cancelledRedirect
  | failedRedirect
deriving DecidableEq, Repr

/-- Branch of `payment_response` (views.py 161-196) reached once the session
beat is in hand: a successful status creates a transaction directly in
`completed` (whose save drives the beat to `sold`) and then invokes
`download_beat` with `beat_id_global`; cancelled and all other statuses only
message-and-redirect without touching the store. -/
def payment_dispatch (now : Nat) (status : String) (buyer : Nat) (s : Store)
    (beat : Beat) : PaymentOutcome × Store × Option Nat :=
  if status = "successful" then
    let t0 : Transaction :=
      { buyer := buyer, beatId := beat.id, amount := beat.price,
        status := .completed, completed_at := none }
    let tb := Transaction.save now t0 beat
    let s1 :=
      { setBeat s tb.2 with transactions := s.transactions ++ [tb.1] }
    let dl := download_beat_view now buyer beat_id_global s1
    (.successful beat_id_global dl.1, dl.2, none)
  else if status = "cancelled" then
    (.cancelledRedirect, s, none)
  else
    (.failedRedirect, s, none)

/-- `payment_response` (views.py 136-196).  `session` is the stored
`current_beat_id` correlation; the third component of the result is the
session value after the handler (the key is deleted on first use, but not
on the invalid-session and 404 paths, which return before the delete).
Python's `if not beat_id` treats both a missing key and a stored 0 as an
invalid session. -/
def payment_response (now : Nat) (status : String) (session : Option Nat)
    (buyer : Nat) (s : Store) : PaymentOutcome × Store × Option Nat :=
  match session with
  | none => (.invalidSession, s, none)
  | some sid =>
    if sid = 0 then
      (.invalidSession, s, some sid)
    else
      match findBeat s sid with
      | none => (.beatNotFound, s, some sid)
      | some beat => payment_dispatch now status buyer s beat

/-- Completed-only queryset: `objects.filter(status=completed)`. -/
def completedTxs (txs : List Transaction) : List Transaction :=
  txs.filter fun t => t.status == .completed

/-- Sum of amounts over a queryset. -/
def sumAmount (txs : List Transaction) : ℚ :=
  txs.foldl (fun a t => a + t.amount) 0

/-- Django's `Sum` aggregate: NULL (none) on an empty queryset. -/
def aggSum (txs : List Transaction) : Option ℚ :=
  match txs with
  | [] => none
  | _ => some (sumAmount txs)

/-- Django's `Avg` aggregate: NULL (none) on an empty queryset. -/
def aggAvg (txs : List Transaction) : Option ℚ :=
  match txs with
  | [] => none
  | _ => some (sumAmount txs / txs.length)

/-- `Transaction.get_total_revenue` (models.py 182-187): sum over completed
transactions, with `or 0` turning a NULL aggregate into 0. -/
def Transaction.get_total_revenue (txs : List Transaction) : ℚ :=
  (aggSum (completedTxs txs)).getD 0

/-- `Transaction.get_beats_sold_count` (models.py 189-192). -/
def Transaction.get_beats_sold_count (txs : List Transaction) : Nat :=
  (completedTxs txs).length

def secondsPerDay : Nat := 86400

/-- `completed_at__date == today`: same calendar day. -/
def sameDate (a b : Nat) : Bool :=
  a / secondsPerDay == b / secondsPerDay

/-- Today-filter of `get_revenue_statistics`: keeps transactions whose
`completed_at` date equals today's date (a NULL timestamp never matches). -/
def todayTxs (now : Nat) (txs : List Transaction) : List Transaction :=
  txs.filter fun t =>
    match t.completed_at with
    | some c => sameDate c now
    | none => false

/-- Result shape of `get_revenue_statistics` (models.py 254-274). -/
structure RevenueStats where
  total_revenue : ℚ
  total_beats_sold : Nat
  average_sale_value : ℚ
  today_revenue : ℚ
  today_sales : Nat
deriving DecidableEq, Repr

/-- `get_revenue_statistics` (models.py 254-274): each aggregate applies
`or 0` to the possibly-NULL result. -/
def get_revenue_statistics (now : Nat) (txs : List Transaction) :
    RevenueStats :=
  let ct := completedTxs txs
  { total_revenue := (aggSum ct).getD 0
    total_beats_sold := ct.length
    average_sale_value := (aggAvg ct).getD 0
    today_revenue := (aggSum (todayTxs now ct)).getD 0
    today_sales := (todayTxs now ct).length }

/-! Concrete fixtures used by counterexamples and witnesses. -/

/-- A sold beat with quota 1, no downloads yet, asset present. -/
def soldBeat1 : Beat :=
  { id := 1, title := "beat", price := 25, status := .sold,
    reserved_until := none, download_count := 0, max_downloads := 1,
    audio_file_exists := true }

/-- A completed purchase of beat 1 by buyer 7. -/
def txC1 : Transaction :=
  { buyer := 7, beatId := 1, amount := 25, status := .completed,
    completed_at := some 0 }

/-- Store holding beat 1 and its completed purchase. -/
def storeC1 : Store :=
  { beats := [soldBeat1], transactions := [txC1], histories := [] }

/-- A beat already holding an unexpired reservation (until time 1000). -/
def heldBeat : Beat :=
  { id := 3, title := "b3", price := 10, status := .reserved,
    reserved_until := some 1000, download_count := 0, max_downloads := 1,
    audio_file_exists := true }

/-- C1: at a state satisfying the claim's preconditions for a delivery —
buyer 7 holds a completed transaction for beat 1 and the asset file exists —
the request raises TypeError at the DownloadHistory insert: the endpoint
returns the store untouched, so zero history rows are created and the
beat's download_count increases by 0, not by exactly 1 as claimed. -/
theorem C1_delivery_crashes_no_increment :
    (download_beat_view 100 7 1 storeC1).1 = .typeError ∧
    (download_beat_view 100 7 1 storeC1).2 = storeC1 ∧
    storeC1.histories.length = 0 ∧
    soldBeat1.download_count = 0 ∧ soldBeat1.max_downloads = 1 := by
  decide

/-- The core operations the lifecycle claims range over, applied to one
beat: reservation, a transaction save, reservation release, the availability
check, delivery through the download endpoint, and the endpoint's
history-creation attempt (views.py 64-68) taken on its own — which raises
TypeError before inserting anything, leaving the beat as it was. -/
inductive CoreOp
  | reserve (now : Nat)
  | txSave (now : Nat) (t : Transaction)
  | release (now : Nat)
  | availCheck (now : Nat)
  | delivery (now : Nat) (txs : List Transaction) (buyer : Nat)
  | historyCreateAttempt

/-- Effect of one core operation on a beat. -/
def applyOp (b : Beat) : CoreOp → Beat
  | .reserve now => reserve_for_purchase now b
  | .txSave now t => (Transaction.save now t b).2
  | .release now => release_reservation now b
  | .availCheck now => (is_available now b).1
  | .delivery now txs buyer => (download_beat now txs buyer b).2.1
  | .historyCreateAttempt => b

/-- Releasing touches only status and expiry, never the counters. -/
theorem release_preserves_counts (now : Nat) (b : Beat) :
    (release_reservation now b).download_count = b.download_count ∧
    (release_reservation now b).max_downloads = b.max_downloads := by
  unfold release_reservation
  split
  · split
    · split
      · exact ⟨rfl, rfl⟩
      · exact ⟨rfl, rfl⟩
    · exact ⟨rfl, rfl⟩
  · exact ⟨rfl, rfl⟩

/-- The download endpoint returns the beat unchanged on every path: the two
forbidden branches never reach it, and the would-be success branch raises at
the history insert before `mark_as_downloaded` or any receiver runs. -/
theorem download_beat_beat_unchanged (now : Nat) (txs : List Transaction)
    (buyer : Nat) (b : Beat) :
    (download_beat now txs buyer b).2.1 = b := by
  unfold download_beat
  split
  · split
    · rfl
    · rfl
  · rfl

/-- A transaction save touches only the beat's status and expiry. -/
theorem txSave_preserves_counts (now : Nat) (t : Transaction) (b : Beat) :
    (Transaction.save now t b).2.download_count = b.download_count ∧
    (Transaction.save now t b).2.max_downloads = b.max_downloads := by
  unfold Transaction.save
  split
  · exact ⟨rfl, rfl⟩
  · split
    · exact release_preserves_counts now b
    · exact ⟨rfl, rfl⟩

/-- No core operation changes download_count or max_downloads. -/
theorem applyOp_preserves_counts (b : Beat) (op : CoreOp) :
    (applyOp b op).download_count = b.download_count ∧
    (applyOp b op).max_downloads = b.max_downloads := by
  cases op with
  | reserve now => exact ⟨rfl, rfl⟩
  | txSave now t => exact txSave_preserves_counts now t b
  | release now => exact release_preserves_counts now b
  | availCheck now => exact release_preserves_counts now b
  | delivery now txs buyer =>
    exact ⟨congrArg Beat.download_count
        (download_beat_beat_unchanged now txs buyer b),
      congrArg Beat.max_downloads
        (download_beat_beat_unchanged now txs buyer b)⟩
  | historyCreateAttempt => exact ⟨rfl, rfl⟩

/-- C2: the invariant download_count ≤ max_downloads is preserved across any
sequence of core operations — none of reserve, transaction save, release,
availability check, delivery or the history-creation attempt ever changes
either counter, because the only incrementing code paths in the program sit
behind the download endpoint's always-raising history insert. -/
theorem C2_invariant_preserved (ops : List CoreOp) (b : Beat)
    (h : b.download_count ≤ b.max_downloads) :
    (ops.foldl applyOp b).download_count
      ≤ (ops.foldl applyOp b).max_downloads := by
  induction ops generalizing b with
  | nil => exact h
  | cons op rest ih =>
    simp only [List.foldl_cons]
    refine ih (applyOp b op) ?_
    obtain ⟨h1, h2⟩ := applyOp_preserves_counts b op
    omega

/-- C2 witness: the invariant across a concrete sequence — reserve, a
completing transaction save, a delivery attempt and a bare history-creation
attempt — on beat 1, which starts with 0 ≤ 1. -/
theorem C2_invariant_preserved_witness :
    ([CoreOp.reserve 0, CoreOp.txSave 10 txC1,
        CoreOp.delivery 20 [txC1] 7, CoreOp.historyCreateAttempt].foldl
        applyOp soldBeat1).download_count
      ≤ ([CoreOp.reserve 0, CoreOp.txSave 10 txC1,
        CoreOp.delivery 20 [txC1] 7, CoreOp.historyCreateAttempt].foldl
        applyOp soldBeat1).max_downloads :=
  C2_invariant_preserved
    [CoreOp.reserve 0, CoreOp.txSave 10 txC1,
      CoreOp.delivery 20 [txC1] 7, CoreOp.historyCreateAttempt]
    soldBeat1 (by decide)

/-- C4 counterexample: beat 3 already holds an unexpired reservation (until
time 1000) at time 0, yet `reserve_for_purchase` grants again — there is no
AlreadyReserved error path at all — and overwrites the hold with a new
expiry of 300. -/
theorem C4_reserve_regrant_counterexample :
    heldBeat.status = .reserved ∧
    heldBeat.reserved_until = some 1000 ∧
    (reserve_for_purchase 0 heldBeat).status = .reserved ∧
    (reserve_for_purchase 0 heldBeat).reserved_until = some 300 := by
  decide

/-- C4 amended: `reserve_for_purchase` is unconditional — for any beat in
any state, including one already reserved, it sets status to `reserved` and
the expiry to now + 5 minutes, returning no error; so of two reservation
attempts on the same beat both succeed, the second overwriting the first. -/
theorem C4_reserve_unconditional (now : Nat) (b : Beat) :
    (reserve_for_purchase now b).status = .reserved ∧
    (reserve_for_purchase now b).reserved_until = some (now + five_minutes) ∧
    reserve_for_purchase now (reserve_for_purchase now b)
      = reserve_for_purchase now b :=
  ⟨rfl, rfl, rfl⟩

/-- A beat whose quota is exhausted (the state beat 1 reaches after a first
delivery marks it `downloaded`). -/
def exhaustedBeat : Beat :=
  { id := 2, title := "b2", price := 10, status := .downloaded,
    reserved_until := none, download_count := 1, max_downloads := 1,
    audio_file_exists := true }

/-- A completed purchase of beat 2 by buyer 7. -/
def txC3 : Transaction :=
  { buyer := 7, beatId := 2, amount := 10, status := .completed,
    completed_at := some 0 }

/-- C3 counterexample: beat 2 is not downloadable (quota exhausted, the
state the claim's second-download scenario reaches with max_downloads = 1),
it is purchased and its asset exists, yet the endpoint neither refuses with
an Exhausted error nor serves: it raises TypeError at the history insert —
`is_downloadable` is never consulted and no Exhausted response exists
anywhere in the code. -/
theorem C3_no_quota_check_counterexample :
    is_downloadable exhaustedBeat = false ∧
    has_purchased [txC3] 7 exhaustedBeat.id = true ∧
    exhaustedBeat.audio_file_exists = true ∧
    (download_beat 100 [txC3] 7 exhaustedBeat).1 = .typeError := by
  decide

/-- C3 amended: the endpoint checks, in order, only the completed-purchase
requirement (absence yields the NotPurchased forbidden response) and asset
existence (absence yields the AssetMissing forbidden response); there is no
`is_downloadable`/Exhausted check, and when both checks pass the request
raises TypeError at the history insert instead of returning the asset — in
particular a second download with max_downloads = 1 crashes with a server
error, it is not refused as Exhausted. -/
theorem C3_check_order (now : Nat) (txs : List Transaction) (buyer : Nat)
    (b : Beat) :
    (has_purchased txs buyer b.id = false →
      (download_beat now txs buyer b).1 = .notPurchased) ∧
    (has_purchased txs buyer b.id = true → b.audio_file_exists = false →
      (download_beat now txs buyer b).1 = .fileMissing) ∧
    (has_purchased txs buyer b.id = true → b.audio_file_exists = true →
      (download_beat now txs buyer b).1 = .typeError) := by
  refine ⟨fun h => ?_, fun h hf => ?_, fun h hf => ?_⟩
  · simp [download_beat, h]
  · simp [download_beat, h, hf]
  · simp [download_beat, h, hf]

/-- C3 witness: the amended order theorem applied at concrete states. -/
theorem C3_check_order_witness :
    (download_beat 100 [] 7 soldBeat1).1 = .notPurchased ∧
    (download_beat 100 [txC3] 7 exhaustedBeat).1 = .typeError :=
  ⟨(C3_check_order 100 [] 7 soldBeat1).1 (by decide),
   (C3_check_order 100 [txC3] 7 exhaustedBeat).2.2 (by decide) (by decide)⟩

/-- A freshly created transaction already in completed state with no
completion stamp, as `payment_response` creates them. -/
def txFresh : Transaction :=
  { buyer := 7, beatId := 3, amount := 10, status := .completed,
    completed_at := none }

/-- C5: a save of a completed transaction whose `completed_at` is unset
stamps it with the save time and synchronously drives the referenced beat to
`sold` with `reserved_until` cleared; saving the resulting pair again, at
any later time, changes neither the transaction nor the beat. -/
theorem C5_completed_save_once (now later : Nat) (t : Transaction) (b : Beat)
    (hs : t.status = .completed) (hc : t.completed_at = none) :
    (Transaction.save now t b).1.completed_at = some now ∧
    (Transaction.save now t b).2.status = .sold ∧
    (Transaction.save now t b).2.reserved_until = none ∧
    Transaction.save later (Transaction.save now t b).1
        (Transaction.save now t b).2
      = ((Transaction.save now t b).1, (Transaction.save now t b).2) := by
  simp [Transaction.save, hs, hc, complete_purchase]

/-- C5 witness: the completing-save theorem at a concrete transaction and
beat, saved at time 50 and re-saved at time 60. -/
theorem C5_completed_save_once_witness :
    (Transaction.save 50 txFresh heldBeat).1.completed_at = some 50 ∧
    (Transaction.save 50 txFresh heldBeat).2.status = .sold ∧
    (Transaction.save 50 txFresh heldBeat).2.reserved_until = none ∧
    Transaction.save 60 (Transaction.save 50 txFresh heldBeat).1
        (Transaction.save 50 txFresh heldBeat).2
      = ((Transaction.save 50 txFresh heldBeat).1,
         (Transaction.save 50 txFresh heldBeat).2) :=
  C5_completed_save_once 50 60 txFresh heldBeat rfl rfl

/-- C6: for a beat reserved at time T, the release operation and the
availability check never touch the hold at or before T + 5 minutes, always
clear it (back to `available`, expiry erased) strictly after, release is
idempotent, release on a beat not in `reserved` status is a no-op, and the
availability check performs exactly the release sweep. -/
theorem C6_release_discipline (T t : Nat) (b : Beat) :
    (t ≤ T + five_minutes →
      release_reservation t (reserve_for_purchase T b)
        = reserve_for_purchase T b) ∧
    (T + five_minutes < t →
      (release_reservation t (reserve_for_purchase T b)).status = .available ∧
      (release_reservation t (reserve_for_purchase T b)).reserved_until
        = none) ∧
    release_reservation t (release_reservation t (reserve_for_purchase T b))
      = release_reservation t (reserve_for_purchase T b) ∧
    (b.status ≠ .reserved → release_reservation t b = b) ∧
    (is_available t (reserve_for_purchase T b)).1
      = release_reservation t (reserve_for_purchase T b) := by
  refine ⟨fun hle => ?_, fun hlt => ?_, ?_, fun hne => ?_, rfl⟩
  · simp [release_reservation, reserve_for_purchase]
    omega
  · simp [release_reservation, reserve_for_purchase, hlt]
  · by_cases hlt : T + five_minutes < t <;>
      simp [release_reservation, reserve_for_purchase, hlt]
  · simp [release_reservation, hne]

/-- C6 witness: the discipline theorem at T = 0 on beat 3's base record: at
t = 100 the hold survives, at t = 400 it is released. -/
theorem C6_release_discipline_witness :
    release_reservation 100 (reserve_for_purchase 0 soldBeat1)
      = reserve_for_purchase 0 soldBeat1 ∧
    (release_reservation 400 (reserve_for_purchase 0 soldBeat1)).status
      = .available ∧
    release_reservation 400 soldBeat1 = soldBeat1 :=
  ⟨(C6_release_discipline 0 100 soldBeat1).1 (by decide),
   ((C6_release_discipline 0 400 soldBeat1).2.1 (by decide)).1,
   (C6_release_discipline 0 400 soldBeat1).2.2.2.1 (by decide)⟩

/-- A beat whose quota is exhausted and status is `downloaded`. -/
def doneBeat : Beat :=
  { id := 4, title := "b4", price := 5, status := .downloaded,
    reserved_until := none, download_count := 1, max_downloads := 1,
    audio_file_exists := true }

/-- C7 counterexample: `reserve_for_purchase` moves the downloaded beat 4
back to `reserved`, so `downloaded` is not terminal under the core
operations. -/
theorem C7_downloaded_reentered_counterexample :
    doneBeat.status = .downloaded ∧
    (reserve_for_purchase 0 doneBeat).status = .reserved := by
  decide

/-- C7 amended: `release_reservation` and delivery through the download
endpoint preserve the `downloaded` state, but `reserve_for_purchase` is
unconditional and moves a downloaded beat to `reserved`, and
`complete_purchase` (run by a completing transaction save) moves it to
`sold` — so `downloaded` is not terminal. -/
theorem C7_downloaded_transitions (now : Nat) (txs : List Transaction)
    (buyer : Nat) (b : Beat) (hb : b.status = .downloaded) :
    release_reservation now b = b ∧
    (download_beat now txs buyer b).2.1.status = .downloaded ∧
    (reserve_for_purchase now b).status = .reserved ∧
    (complete_purchase b).status = .sold := by
  refine ⟨?_, ?_, rfl, rfl⟩
  · simp [release_reservation, hb]
  · rw [download_beat_beat_unchanged]
    exact hb

/-- C7 witness: the transitions theorem at the concrete downloaded beat 4. -/
theorem C7_downloaded_transitions_witness :
    release_reservation 5 doneBeat = doneBeat ∧
    (download_beat 5 [] 7 doneBeat).2.1.status = .downloaded ∧
    (reserve_for_purchase 5 doneBeat).status = .reserved ∧
    (complete_purchase doneBeat).status = .sold :=
  C7_downloaded_transitions 5 [] 7 doneBeat rfl

/-- The download endpoint never writes to the transaction ledger. -/
theorem download_view_preserves_transactions (now buyer beatId : Nat)
    (s : Store) :
    (download_beat_view now buyer beatId s).2.transactions
      = s.transactions := by
  unfold download_beat_view
  split <;> rfl

/-- C8 counterexample: a cancelled callback with a resolvable correlation
(session names beat 1, which exists) returns the store unchanged — no
ledger record in `cancelled` (or any other state) is written, refuting the
claim that cancellation is recorded in the ledger. -/
theorem C8_cancelled_unrecorded_counterexample :
    payment_response 100 "cancelled" (some 1) 7 storeC1
      = (.cancelledRedirect, storeC1, none) ∧
    (storeC1.transactions.filter fun t => t.status == .cancelled) = [] := by
  decide

/-- C8 amended: with a resolvable correlation, a successful callback appends
one ledger record created directly in `completed` and then invokes the
download delivery (on `beat_id_global`); a cancelled callback and any other
non-successful status leave the store untouched — no cancelled or failed
ledger record is written and no delivery is performed. -/
theorem C8_callback_dispatch (now buyer sid : Nat) (s : Store) (b : Beat)
    (st : String) (hs : sid ≠ 0) (hf : findBeat s sid = some b) :
    (st = "successful" →
      ∃ dl s2, payment_response now st (some sid) buyer s
          = (.successful beat_id_global dl, s2, none) ∧
        s2.transactions = s.transactions ++
          [{ buyer := buyer, beatId := b.id, amount := b.price,
             status := .completed, completed_at := some now }]) ∧
    (st = "cancelled" →
      payment_response now st (some sid) buyer s
        = (.cancelledRedirect, s, none)) ∧
    (st ≠ "successful" → st ≠ "cancelled" →
      payment_response now st (some sid) buyer s
        = (.failedRedirect, s, none)) := by
  have hres : payment_response now st (some sid) buyer s
      = payment_dispatch now st buyer s b := by
    unfold payment_response
    dsimp only []
    rw [if_neg hs, hf]
  refine ⟨fun h1 => ?_, fun h2 => ?_, fun h1 h2 => ?_⟩
  · subst h1
    rw [hres]
    simp only [payment_dispatch, if_pos rfl]
    refine ⟨_, _, rfl, ?_⟩
    rw [download_view_preserves_transactions]
    simp [Transaction.save]
  · subst h2
    rw [hres]
    simp [payment_dispatch]
  · rw [hres]
    simp only [payment_dispatch, if_neg h1, if_neg h2]

/-- C8 witness: the dispatch theorem at a concrete store for a cancelled
and for an unrecognised callback status. -/
theorem C8_callback_dispatch_witness :
    payment_response 9 "cancelled" (some 1) 7 storeC1
      = (.cancelledRedirect, storeC1, none) ∧
    payment_response 9 "weird" (some 1) 7 storeC1
      = (.failedRedirect, storeC1, none) :=
  ⟨(C8_callback_dispatch 9 7 1 storeC1 soldBeat1 "cancelled" (by decide)
      (by decide)).2.1 rfl,
   (C8_callback_dispatch 9 7 1 storeC1 soldBeat1 "weird" (by decide)
      (by decide)).2.2 (by decide) (by decide)⟩

/-- C9: `beat_id_global` is the constant 0, and a successful callback (with
any resolvable correlation) invokes delivery with it rather than with the
session's beat id — whenever the session names a nonzero beat, the id
handed to the delivery step differs from the beat that was paid for. -/
theorem C9_delivery_uses_global (now buyer sid : Nat) (s : Store) (b : Beat)
    (hs : sid ≠ 0) (hf : findBeat s sid = some b) :
    beat_id_global = 0 ∧
    ∃ dl s2, payment_response now "successful" (some sid) buyer s
        = (.successful beat_id_global dl, s2, none) ∧
      beat_id_global ≠ sid := by
  have hres : payment_response now "successful" (some sid) buyer s
      = payment_dispatch now "successful" buyer s b := by
    unfold payment_response
    dsimp only []
    rw [if_neg hs, hf]
  refine ⟨rfl, ?_⟩
  rw [hres]
  simp only [payment_dispatch, if_pos rfl]
  exact ⟨_, _, rfl, fun h => hs h.symm⟩

/-- C9 witness: the theorem at a store whose session names beat 1. -/
theorem C9_delivery_uses_global_witness :
    beat_id_global = 0 ∧
    ∃ dl s2, payment_response 3 "successful" (some 1) 7 storeC1
        = (.successful beat_id_global dl, s2, none) ∧
      beat_id_global ≠ 1 :=
  C9_delivery_uses_global 3 7 1 storeC1 soldBeat1 (by decide) (by decide)

/-- A lone pending transaction: a ledger with zero completed transactions. -/
def txPendingOnly : Transaction :=
  { buyer := 1, beatId := 1, amount := 5, status := .pending,
    completed_at := none }

/-- C10: over a ledger containing no completed transaction, every revenue
aggregation — total completed revenue, completed-transaction count, average
sale value, today's revenue and today's count — evaluates to 0, never to an
error or a null: each NULL aggregate is coerced by `or 0`. -/
theorem C10_empty_aggregates_zero (now : Nat) (txs : List Transaction)
    (h : ∀ t ∈ txs, t.status ≠ .completed) :
    Transaction.get_total_revenue txs = 0 ∧
    Transaction.get_beats_sold_count txs = 0 ∧
    get_revenue_statistics now txs
      = { total_revenue := 0, total_beats_sold := 0, average_sale_value := 0,
          today_revenue := 0, today_sales := 0 } := by
  have hc : completedTxs txs = [] := by
    refine List.filter_eq_nil_iff.mpr fun t ht => ?_
    simpa using h t ht
  refine ⟨?_, ?_, ?_⟩ <;>
    simp [Transaction.get_total_revenue, Transaction.get_beats_sold_count,
      get_revenue_statistics, hc, aggSum, aggAvg, todayTxs]

/-- C10 witness: the aggregate theorem over a ledger holding only a pending
transaction. -/
theorem C10_empty_aggregates_zero_witness :
    Transaction.get_total_revenue [txPendingOnly] = 0 ∧
    Transaction.get_beats_sold_count [txPendingOnly] = 0 ∧
    get_revenue_statistics 0 [txPendingOnly]
      = { total_revenue := 0, total_beats_sold := 0, average_sale_value := 0,
          today_revenue := 0, today_sales := 0 } :=
  C10_empty_aggregates_zero 0 [txPendingOnly] (by decide)

end Warren
